import Mathlib

/-!
Shallow embedding of the rysk-core RISC-V hart emulator (src/register.rs,
src/variant.rs, src/system.rs, src/csr.rs).

Registers are fixed-size little-endian byte arrays in the source; every
arithmetic operation first converts the bytes to the `u32`/`i32`
(resp. `u64`/`i64`) value with `from_le_bytes` and converts back with
`to_le_bytes`.  Since these conversions are mutually inverse bijections,
a register of width `w` is embedded as its unsigned little-endian value,
`Fin (2 ^ w)`; byte-array constructions such as `sign_extended_half` are
translated to the value the constructed byte array denotes.

The embedding fixes the crate features the claims are about: `ext-m` is
enabled for the plain execute path and `ext-csr` for the CSR carve-out;
Rust panics (`panic!`, `unimplemented!`, `expect`) are modelled as an
explicit abort outcome.
-/

/-- Mirrors `enum RegisterWidth` of src/register.rs. -/
inductive RegisterWidth
  | Bits32
  | Bits64
deriving DecidableEq

/-- A register of width `w` bits, identified with its unsigned
little-endian value (`u32::from_le_bytes` of its byte array). -/
abbrev Reg (w : Nat) := Fin (2 ^ w)

namespace Reg

variable {w : Nat}

/-- Mirrors `Xlen::unsigned` (`uN::from_le_bytes`). -/
def unsigned (r : Reg w) : Nat := r.val

/-- Mirrors `Xlen::signed` (`iN::from_le_bytes`): the two's-complement
reading of the same bits. -/
def signed (r : Reg w) : Int :=
  if r.val < 2 ^ (w - 1) then (r.val : Int) else (r.val : Int) - 2 ^ w

/-- Mirrors `Xlen::from_unsigned` (`uN::to_le_bytes`). -/
def from_unsigned (w : Nat) (n : Nat) : Reg w :=
  ⟨n % 2 ^ w, Nat.mod_lt _ (Nat.pos_pow_of_pos w (by norm_num))⟩

/-- Mirrors `Xlen::from_signed` (`iN::to_le_bytes`): the bits of a signed
value are its value modulo `2 ^ w`. -/
def from_signed (w : Nat) (s : Int) : Reg w :=
  from_unsigned w (s % (2 ^ w : Int)).toNat

/-- Mirrors `Xlen::append`: `self.unsigned() + value` as the unsigned
address type (wrapping in release builds). -/
def append (r : Reg w) (value : Nat) : Nat := (r.val + value) % 2 ^ w

end Reg

/-- Two's-complement wrap of an integer into the signed range of width
`w`; this is what Rust's `wrapping_*` operations on `iN` compute. -/
def wrapSigned (w : Nat) (n : Int) : Int :=
  (n + 2 ^ (w - 1)) % 2 ^ w - 2 ^ (w - 1)

/-- Arithmetic right shift of a signed value: floor division by `2 ^ k`,
which is exactly `iN::wrapping_shr`'s bit behaviour. -/
def arithShiftRight (a : Int) (k : Nat) : Int := Int.fdiv a (2 ^ k)

/- Mirrors `impl Integer for iN` and `impl Integer for uN` of
src/register.rs (macro `impl_integer!`), width-generic: `SignedInt`
functions act on the `iN` view, those in `UnsignedInt` on the `uN`
view. -/
namespace SignedInt

/-- Mirrors `iN::wrapping_add`. -/
def add (w : Nat) (a b : Int) : Int := wrapSigned w (a + b)

/-- Mirrors `Integer::shr` for `iN`: `wrapping_shr(self, other as _)`,
whose effective shift count is `other mod w`. -/
def shr (w : Nat) (a b : Int) : Int :=
  arithShiftRight a (((b % (2 ^ w : Int)).toNat) % w)

/-- Mirrors `Integer::div` for `iN`: division by zero gives `-1`,
`MIN / -1` gives `MIN`, otherwise truncated division. -/
def div (w : Nat) (a b : Int) : Int :=
  if b = 0 then -1
  else if a = -(2 ^ (w - 1)) ∧ b = -1 then a
  else Int.tdiv a b

/-- Mirrors `Integer::rem` for `iN`: remainder of division by zero is the
dividend, `MIN % -1` gives `0`, otherwise truncated remainder. -/
def rem (w : Nat) (a b : Int) : Int :=
  if b = 0 then a
  else if a = -(2 ^ (w - 1)) ∧ b = -1 then 0
  else Int.tmod a b

/-- Mirrors `Multiply::muls`: the double-width product, split into
(low, high) halves.  `saturating_mul` at double width never saturates for
in-range inputs, so it is the exact product. -/
def muls (w : Nat) (a b : Int) : Int × Int :=
  (wrapSigned w (a * b), wrapSigned w (arithShiftRight (a * b) w))

/-- Mirrors `Multiply::mulsu`: signed times unsigned, split into
(low, high) halves of the double-width product. -/
def mulsu (w : Nat) (a : Int) (b : Nat) : Int × Int :=
  (wrapSigned w (a * b), wrapSigned w (arithShiftRight (a * b) w))

end SignedInt

namespace UnsignedInt

/-- Mirrors `uN::wrapping_add`. -/
def add (w : Nat) (a b : Nat) : Nat := (a + b) % 2 ^ w

/-- Mirrors `uN::wrapping_sub` (for operands below `2 ^ w`). -/
def sub (w : Nat) (a b : Nat) : Nat := (2 ^ w + a - b % 2 ^ w) % 2 ^ w

/-- Mirrors `Integer::shl` for `uN`: `wrapping_shl` masks the count to
`other mod w`. -/
def shl (w : Nat) (a b : Nat) : Nat := (a <<< (b % w)) % 2 ^ w

/-- Mirrors `Integer::shr` for `uN`. -/
def shr (w : Nat) (a b : Nat) : Nat := a >>> (b % w)

/-- Mirrors `Integer::div` for `uN`: `-1 as uN` is the all-ones value and
`uN::MIN` is `0`. -/
def div (w : Nat) (a b : Nat) : Nat :=
  if b = 0 then 2 ^ w - 1
  else if a = 0 ∧ b = 2 ^ w - 1 then a
  else a / b

/-- Mirrors `Integer::rem` for `uN`. -/
def rem (w : Nat) (a b : Nat) : Nat :=
  if b = 0 then a
  else if a = 0 ∧ b = 2 ^ w - 1 then 0
  else a % b

/-- Mirrors `Multiply::mulu`: the double-width product split into
(low, high) halves. -/
def mulu (w : Nat) (a b : Nat) : Nat × Nat :=
  ((a * b) % 2 ^ w, ((a * b) >>> w) % 2 ^ w)

end UnsignedInt

namespace Reg

variable {w : Nat}

/-- Mirrors `Register::add_signed`. -/
def add_signed (r o : Reg w) : Reg w :=
  from_signed w (SignedInt.add w r.signed o.signed)

/-- Mirrors `Register::add_unsigned`. -/
def add_unsigned (r o : Reg w) : Reg w :=
  from_unsigned w (UnsignedInt.add w r.unsigned o.unsigned)

/-- Mirrors `Register::sub_unsigned`. -/
def sub_unsigned (r o : Reg w) : Reg w :=
  from_unsigned w (UnsignedInt.sub w r.unsigned o.unsigned)

/-- Mirrors `Register::shl`. -/
def shl (r o : Reg w) : Reg w :=
  from_unsigned w (UnsignedInt.shl w r.unsigned o.unsigned)

/-- Mirrors `Register::shr`. -/
def shr (r o : Reg w) : Reg w :=
  from_unsigned w (UnsignedInt.shr w r.unsigned o.unsigned)

/-- Mirrors `Register::sha`. -/
def sha (r o : Reg w) : Reg w :=
  from_signed w (SignedInt.shr w r.signed o.signed)

/-- Mirrors `Register::mul` (`ext-m`). -/
def mul (r o : Reg w) : Reg w :=
  from_signed w (SignedInt.muls w r.signed o.signed).1

/-- Mirrors `Register::mulh` (`ext-m`). -/
def mulh (r o : Reg w) : Reg w :=
  from_signed w (SignedInt.muls w r.signed o.signed).2

/-- Mirrors `Register::mulhu` (`ext-m`). -/
def mulhu (r o : Reg w) : Reg w :=
  from_unsigned w (UnsignedInt.mulu w r.unsigned o.unsigned).2

/-- Mirrors `Register::mulhsu` (`ext-m`). -/
def mulhsu (r o : Reg w) : Reg w :=
  from_signed w (SignedInt.mulsu w r.signed o.unsigned).2

/-- Mirrors `Register::div` (`ext-m`). -/
def div (r o : Reg w) : Reg w :=
  from_signed w (SignedInt.div w r.signed o.signed)

/-- Mirrors `Register::divu` (`ext-m`). -/
def divu (r o : Reg w) : Reg w :=
  from_unsigned w (UnsignedInt.div w r.unsigned o.unsigned)

/-- Mirrors `Register::rem` (`ext-m`). -/
def rem (r o : Reg w) : Reg w :=
  from_signed w (SignedInt.rem w r.signed o.signed)

/-- Mirrors `Register::remu` (`ext-m`). -/
def remu (r o : Reg w) : Reg w :=
  from_unsigned w (UnsignedInt.rem w r.unsigned o.unsigned)

/-- Mirrors `Register::and`. -/
def and (r o : Reg w) : Reg w := from_unsigned w (r.unsigned &&& o.unsigned)

/-- Mirrors `Register::or`. -/
def or (r o : Reg w) : Reg w := from_unsigned w (r.unsigned ||| o.unsigned)

/-- Mirrors `Register::xor`. -/
def xor (r o : Reg w) : Reg w := from_unsigned w (r.unsigned ^^^ o.unsigned)

/-- Mirrors `Register::not` (`!x` on `uN` is xor with all-ones). -/
def not (r : Reg w) : Reg w := from_unsigned w (r.unsigned ^^^ (2 ^ w - 1))

/-- Mirrors `Register::eq`. -/
def eq (r o : Reg w) : Bool := r.unsigned = o.unsigned

/-- Mirrors `Register::neq`. -/
def neq (r o : Reg w) : Bool := r.unsigned ≠ o.unsigned

/-- Mirrors `Register::lt_signed`. -/
def lt_signed (r o : Reg w) : Bool := r.signed < o.signed

/-- Mirrors `Register::lt_unsigned`. -/
def lt_unsigned (r o : Reg w) : Bool := r.unsigned < o.unsigned

/-- Mirrors `Register::gte_signed`. -/
def gte_signed (r o : Reg w) : Bool := o.signed ≤ r.signed

/-- Mirrors `Register::gte_unsigned`. -/
def gte_unsigned (r o : Reg w) : Bool := o.unsigned ≤ r.unsigned

/-- Mirrors `Register::sign_extended_byte`: low byte `b`, upper bytes
replicated from bit 7 of `b`. -/
def sign_extended_byte (w : Nat) (b : Nat) : Reg w :=
  from_unsigned w (b + if b &&& 0x80 ≠ 0 then 2 ^ w - 2 ^ 8 else 0)

/-- Mirrors `Register::zero_extended_byte`. -/
def zero_extended_byte (w : Nat) (b : Nat) : Reg w := from_unsigned w b

/-- Mirrors `Register::sign_extended_half` on the halfword `[h0, h1]`. -/
def sign_extended_half (w : Nat) (h0 h1 : Nat) : Reg w :=
  from_unsigned w (h0 + 2 ^ 8 * h1 + if h1 &&& 0x80 ≠ 0 then 2 ^ w - 2 ^ 16 else 0)

/-- Mirrors `Register::zero_extended_half`. -/
def zero_extended_half (w : Nat) (h0 h1 : Nat) : Reg w :=
  from_unsigned w (h0 + 2 ^ 8 * h1)

/-- Mirrors `Register::sign_extended_word` on the word `[w0, w1, w2, w3]`
(for a 32-bit register the extension summand is zero, matching the
identity implementation in the source). -/
def sign_extended_word (w : Nat) (w0 w1 w2 w3 : Nat) : Reg w :=
  from_unsigned w (w0 + 2 ^ 8 * w1 + 2 ^ 16 * w2 + 2 ^ 24 * w3 +
    if w3 &&& 0x80 ≠ 0 then 2 ^ w - 2 ^ 32 else 0)

/-- Mirrors `Register::sign_extended_word` applied to a whole word given
by its value (as in the W-suffixed execute arms, which pass
`Register32::word()`); bit 31 is the sign bit of the word. -/
def sign_extended_wordValue (w : Nat) (v : Nat) : Reg w :=
  from_unsigned w (v + if v &&& 0x80000000 ≠ 0 then 2 ^ w - 2 ^ 32 else 0)

/-- Mirrors `Register::zero_extended_word`. -/
def zero_extended_word (w : Nat) (w0 w1 w2 w3 : Nat) : Reg w :=
  from_unsigned w (w0 + 2 ^ 8 * w1 + 2 ^ 16 * w2 + 2 ^ 24 * w3)

/-- Mirrors `Register::byte`: the lowest little-endian byte. -/
def byte (r : Reg w) : Nat := r.val % 2 ^ 8

/-- Mirrors `Register::half` as the value of the two lowest bytes. -/
def half (r : Reg w) : Nat := r.val % 2 ^ 16

/-- Mirrors `Register::word` as the value of the four lowest bytes. -/
def word (r : Reg w) : Nat := r.val % 2 ^ 32

end Reg

/-- Mirrors `Register32::WIDTH` of src/register.rs. -/
def Register32.WIDTH : RegisterWidth := RegisterWidth.Bits32

/-- Mirrors `Register64::WIDTH` of src/register.rs, which the source
declares as `Bits32`. -/
def Register64.WIDTH : RegisterWidth := RegisterWidth.Bits32

/-- Mirrors `Register64::split`: the (low, high) 32-bit halves. -/
def Register64.split (r : Reg 64) : Reg 32 × Reg 32 :=
  (Reg.from_unsigned 32 (r.val % 2 ^ 32), Reg.from_unsigned 32 (r.val / 2 ^ 32))

/-- A four-byte instruction word as fetched from memory
(`instruction[0]` is `b0`). -/
structure Bytes4 where
  b0 : Nat
  b1 : Nat
  b2 : Nat
  b3 : Nat
deriving DecidableEq

namespace variant

/-- Mirrors macro `destination!` of src/variant.rs. -/
def destinationField (i : Bytes4) : Nat :=
  ((i.b0 &&& 0x80) >>> 7) ||| ((i.b1 &&& 0x0F) <<< 1)

/-- Mirrors macro `source1!` of src/variant.rs. -/
def source1Field (i : Bytes4) : Nat :=
  ((i.b1 &&& 0x80) >>> 7) ||| ((i.b2 &&& 0x0F) <<< 1)

/-- Mirrors macro `source2!` of src/variant.rs. -/
def source2Field (i : Bytes4) : Nat :=
  ((i.b2 &&& 0xF0) >>> 4) ||| ((i.b3 &&& 0x01) <<< 4)

/-- Mirrors `struct R` of src/variant.rs. -/
structure R where
  destination : Nat
  source1 : Nat
  source2 : Nat
deriving DecidableEq

/-- Mirrors `impl Variant for R`. -/
def R.decode (i : Bytes4) : R :=
  { destination := destinationField i
    source1 := source1Field i
    source2 := source2Field i }

/-- Mirrors `struct I<R>` of src/variant.rs. -/
structure I (w : Nat) where
  destination : Nat
  source : Nat
  immediate : Reg w
deriving DecidableEq

/-- Mirrors `impl Variant for I<R>`. -/
def I.decode (w : Nat) (i : Bytes4) : I w :=
  let signed := i.b3 &&& 0x80 ≠ 0
  { destination := destinationField i
    source := source1Field i
    immediate := Reg.sign_extended_half w
      (((i.b2 &&& 0xF0) >>> 4) ||| ((i.b3 &&& 0x0F) <<< 4))
      (((i.b3 &&& 0xF0) >>> 4) ||| if signed then 0xF0 else 0) }

/-- Mirrors `struct C` of src/variant.rs. -/
structure C where
  destination : Nat
  source : Nat
  csr : Nat
deriving DecidableEq

/-- Mirrors `impl Variant for C`. -/
def C.decode (i : Bytes4) : C :=
  { destination := destinationField i
    source := source1Field i
    csr := ((i.b2 &&& 0xF0) >>> 4) ||| ((i.b3 &&& 0xFF) <<< 4) }

/-- Mirrors `struct S<R>` of src/variant.rs. -/
structure S (w : Nat) where
  source1 : Nat
  source2 : Nat
  immediate : Reg w
deriving DecidableEq

/-- Mirrors `impl Variant for S<R>`. -/
def S.decode (w : Nat) (i : Bytes4) : S w :=
  let signed := i.b3 &&& 0x80 ≠ 0
  { source1 := source1Field i
    source2 := source2Field i
    immediate := Reg.sign_extended_half w
      (((i.b0 &&& 0x80) >>> 7) ||| ((i.b1 &&& 0x0F) <<< 1) ||| ((i.b3 &&& 0x0E) <<< 4))
      (((i.b3 &&& 0xF0) >>> 4) ||| if signed then 0xF0 else 0) }

/-- Mirrors `struct B<R>` of src/variant.rs. -/
structure B (w : Nat) where
  source1 : Nat
  source2 : Nat
  immediate : Reg w
deriving DecidableEq

/-- Mirrors `impl Variant for B<R>`. -/
def B.decode (w : Nat) (i : Bytes4) : B w :=
  let signed := i.b3 &&& 0x80 ≠ 0
  { source1 := source1Field i
    source2 := source2Field i
    immediate := Reg.sign_extended_half w
      (((i.b1 &&& 0xF) <<< 1) ||| ((i.b3 &&& 0x0E) <<< 4))
      (((i.b3 &&& 0x70) >>> 4) ||| ((i.b0 &&& 0x80) >>> 4) ||| ((i.b3 &&& 0x80) >>> 3)
        ||| if signed then 0xE0 else 0) }

/-- Mirrors `struct U<R>` of src/variant.rs. -/
structure U (w : Nat) where
  destination : Nat
  immediate : Reg w
deriving DecidableEq

/-- Mirrors `impl Variant for U<R>`. -/
def U.decode (w : Nat) (i : Bytes4) : U w :=
  { destination := destinationField i
    immediate := Reg.sign_extended_word w 0 (i.b1 &&& 0xF0) i.b2 i.b3 }

/-- Mirrors `struct J<R>` of src/variant.rs. -/
structure J (w : Nat) where
  destination : Nat
  immediate : Reg w
deriving DecidableEq

/-- Mirrors `impl Variant for J<R>`. -/
def J.decode (w : Nat) (i : Bytes4) : J w :=
  let signed := i.b3 &&& 0x80 ≠ 0
  { destination := destinationField i
    immediate := Reg.sign_extended_word w
      (((i.b2 &&& 0xE0) >>> 4) ||| ((i.b3 &&& 0x0F) <<< 4))
      (((i.b3 &&& 0x70) >>> 4) ||| ((i.b2 &&& 0x10) >>> 1) ||| (i.b1 &&& 0xF0))
      ((i.b2 &&& 0x0F) ||| ((i.b3 &&& 0x80) >>> 3) ||| if signed then 0xE0 else 0)
      (if signed then 0xFF else 0) }

end variant

/-- Mirrors `enum Trap` of src/system.rs. -/
inductive Trap
  | InstructionMisaligned
  | IllegalInstruction
  | SystemCall
  | Breakpoint
deriving DecidableEq

/-- The host memory: a byte for every address (the `Mmu` trait of
src/system.rs, with `R::Unsigned` addresses read as naturals). -/
def Mem : Type := Nat → Nat

/-- Mirrors `Mmu::get`. -/
def Mem.get (m : Mem) (address : Nat) : Nat := m address

/-- Mirrors `Mmu::set`. -/
def Mem.set (m : Mem) (address : Nat) (value : Nat) : Mem :=
  Function.update m address value

/-- Mirrors the default `Mmu::fetch`: the four bytes at `address`. -/
def Mem.fetch (m : Mem) (address : Reg 32) : Bytes4 :=
  { b0 := m.get address.unsigned
    b1 := m.get (address.append 1)
    b2 := m.get (address.append 2)
    b3 := m.get (address.append 3) }

/-- Mirrors `struct Core<R>` of src/system.rs at `R = Register32` without
the `ext-csr` feature: 32 general-purpose registers and the program
counter.  The register file is total over `Nat` indices; `execute` only
ever passes decoded indices, which are below 32. -/
structure Core32 where
  registers : Nat → Reg 32
  pc : Reg 32

namespace Core32

/-- Mirrors `Core::new` (non `ext-csr`): all registers default to zero. -/
def new (address : Nat) : Core32 :=
  { registers := fun _ => Reg.from_unsigned 32 0
    pc := Reg.from_unsigned 32 address }

/-- Mirrors `Core::step`: advance the program counter by 4. -/
def step (c : Core32) : Core32 :=
  { c with pc := c.pc.add_unsigned (Reg.zero_extended_byte 32 4) }

/-- Mirrors `Core::get`. -/
def get (c : Core32) (index : Nat) : Reg 32 := c.registers index

/-- Mirrors `Core::set`: writes to register 0 are discarded. -/
def set (c : Core32) (index : Nat) (register : Reg 32) : Core32 :=
  if 0 < index then { c with registers := Function.update c.registers index register }
  else c

end Core32

/-- Outcome of one `Core::execute` step without `ext-csr`: the returned
`Option<Trap>` together with the hart and memory as left by the call, or
a Rust panic (`sign_extended_double` on a 32-bit register). -/
inductive StepResult
  | done (trap : Option Trap) (core : Core32) (mem : Mem)
  | panicked

/-- Mirrors `Core::<Register32>::execute` of src/system.rs with features
`ext-m` enabled and `ext-csr` disabled: fetch, compute the dispatch key
and run the matching arm, the arms in source order with their guards
(width guards are kept literally, written with `Register32.WIDTH`).
With `ext-csr` disabled the CSR opcodes fall through to the illegal
instruction arm, and `trap!` returns the trap without touching state. -/
def execute32 (c : Core32) (mmu : Mem) : StepResult :=
  let instruction := mmu.fetch c.pc
  let opcode := instruction.b0 &&& 0x7F
  let funct3 := (instruction.b1 &&& 0x70) >>> 4
  let funct7 := (instruction.b3 &&& 0xFE) >>> 1
  -- ADD
  if opcode = 0b0110011 ∧ funct3 = 0b000 ∧ funct7 = 0b0000000 then
    let d := variant.R.decode instruction
    .done none ((c.set d.destination ((c.get d.source1).add_unsigned (c.get d.source2))).step) mmu
  -- ADDW (no width guard in the source)
  else if opcode = 0b0111011 ∧ funct3 = 0b000 ∧ funct7 = 0b0000000 then
    let d := variant.R.decode instruction
    .done none ((c.set d.destination (Reg.sign_extended_wordValue 32
      (((Reg.from_unsigned 32 (c.get d.source1).word).add_unsigned
        (Reg.from_unsigned 32 (c.get d.source2).word)).word))).step) mmu
  -- SUB
  else if opcode = 0b0110011 ∧ funct3 = 0b000 ∧ funct7 = 0b0100000 then
    let d := variant.R.decode instruction
    .done none ((c.set d.destination ((c.get d.source1).sub_unsigned (c.get d.source2))).step) mmu
  -- SUBW (no width guard in the source)
  else if opcode = 0b0111011 ∧ funct3 = 0b000 ∧ funct7 = 0b0100000 then
    let d := variant.R.decode instruction
    .done none ((c.set d.destination (Reg.sign_extended_wordValue 32
      (((Reg.from_unsigned 32 (c.get d.source1).word).sub_unsigned
        (Reg.from_unsigned 32 (c.get d.source2).word)).word))).step) mmu
  -- SLT
  else if opcode = 0b0110011 ∧ funct3 = 0b010 ∧ funct7 = 0b0000000 then
    let d := variant.R.decode instruction
    .done none ((c.set d.destination (if (c.get d.source1).lt_signed (c.get d.source2)
      then Reg.zero_extended_byte 32 1 else Reg.zero_extended_byte 32 0)).step) mmu
  -- SLTU
  else if opcode = 0b0110011 ∧ funct3 = 0b011 ∧ funct7 = 0b0000000 then
    let d := variant.R.decode instruction
    .done none ((c.set d.destination (if (c.get d.source1).lt_unsigned (c.get d.source2)
      then Reg.zero_extended_byte 32 1 else Reg.zero_extended_byte 32 0)).step) mmu
  -- ADDI
  else if opcode = 0b0010011 ∧ funct3 = 0b000 then
    let d := variant.I.decode 32 instruction
    .done none ((c.set d.destination ((c.get d.source).add_signed d.immediate)).step) mmu
  -- ADDIW (no width guard in the source)
  else if opcode = 0b0011011 ∧ funct3 = 0b000 then
    let d := variant.I.decode 32 instruction
    .done none ((c.set d.destination (Reg.sign_extended_wordValue 32
      (((Reg.from_unsigned 32 (c.get d.source).word).add_signed d.immediate).word))).step) mmu
  -- SLTI
  else if opcode = 0b0010011 ∧ funct3 = 0b010 then
    let d := variant.I.decode 32 instruction
    .done none ((c.set d.destination (if (c.get d.source).lt_signed d.immediate
      then Reg.zero_extended_byte 32 1 else Reg.zero_extended_byte 32 0)).step) mmu
  -- SLTIU
  else if opcode = 0b0010011 ∧ funct3 = 0b011 then
    let d := variant.I.decode 32 instruction
    .done none ((c.set d.destination (if (c.get d.source).lt_unsigned d.immediate
      then Reg.zero_extended_byte 32 1 else Reg.zero_extended_byte 32 0)).step) mmu
  -- XOR
  else if opcode = 0b0110011 ∧ funct3 = 0b100 ∧ funct7 = 0b0000000 then
    let d := variant.R.decode instruction
    .done none ((c.set d.destination ((c.get d.source1).xor (c.get d.source2))).step) mmu
  -- OR
  else if opcode = 0b0110011 ∧ funct3 = 0b110 ∧ funct7 = 0b0000000 then
    let d := variant.R.decode instruction
    .done none ((c.set d.destination ((c.get d.source1).or (c.get d.source2))).step) mmu
  -- AND
  else if opcode = 0b0110011 ∧ funct3 = 0b111 ∧ funct7 = 0b0000000 then
    let d := variant.R.decode instruction
    .done none ((c.set d.destination ((c.get d.source1).and (c.get d.source2))).step) mmu
  -- XORI
  else if opcode = 0b0010011 ∧ funct3 = 0b100 then
    let d := variant.I.decode 32 instruction
    .done none ((c.set d.destination ((c.get d.source).xor d.immediate)).step) mmu
  -- ORI
  else if opcode = 0b0010011 ∧ funct3 = 0b110 then
    let d := variant.I.decode 32 instruction
    .done none ((c.set d.destination ((c.get d.source).or d.immediate)).step) mmu
  -- ANDI
  else if opcode = 0b0010011 ∧ funct3 = 0b111 then
    let d := variant.I.decode 32 instruction
    .done none ((c.set d.destination ((c.get d.source).and d.immediate)).step) mmu
  -- SLL
  else if opcode = 0b0110011 ∧ funct3 = 0b001 ∧ funct7 = 0b0000000 then
    let d := variant.R.decode instruction
    .done none ((c.set d.destination ((c.get d.source1).shl (c.get d.source2))).step) mmu
  -- SLLW (guard: width is not 32 bits)
  else if opcode = 0b0111011 ∧ funct3 = 0b001 ∧ funct7 = 0b0000000
      ∧ Register32.WIDTH ≠ RegisterWidth.Bits32 then
    let d := variant.R.decode instruction
    .done none ((c.set d.destination (Reg.sign_extended_wordValue 32
      (((Reg.from_unsigned 32 (c.get d.source1).word).shl
        (Reg.from_unsigned 32 (c.get d.source2).word)).word))).step) mmu
  -- SRL
  else if opcode = 0b0110011 ∧ funct3 = 0b101 ∧ funct7 = 0b0000000 then
    let d := variant.R.decode instruction
    .done none ((c.set d.destination ((c.get d.source1).shr (c.get d.source2))).step) mmu
  -- SRLW (guard: width is not 32 bits)
  else if opcode = 0b0111011 ∧ funct3 = 0b101 ∧ funct7 = 0b0000000
      ∧ Register32.WIDTH ≠ RegisterWidth.Bits32 then
    let d := variant.R.decode instruction
    .done none ((c.set d.destination (Reg.sign_extended_wordValue 32
      (((Reg.from_unsigned 32 (c.get d.source1).word).shr
        (Reg.from_unsigned 32 (c.get d.source2).word)).word))).step) mmu
  -- SRA
  else if opcode = 0b0110011 ∧ funct3 = 0b101 ∧ funct7 = 0b0100000 then
    let d := variant.R.decode instruction
    .done none ((c.set d.destination ((c.get d.source1).sha (c.get d.source2))).step) mmu
  -- SRAW (guard: width is not 32 bits)
  else if opcode = 0b0111011 ∧ funct3 = 0b101 ∧ funct7 = 0b0100000
      ∧ Register32.WIDTH ≠ RegisterWidth.Bits32 then
    let d := variant.R.decode instruction
    .done none ((c.set d.destination (Reg.sign_extended_wordValue 32
      (((Reg.from_unsigned 32 (c.get d.source1).word).sha
        (Reg.from_unsigned 32 (c.get d.source2).word)).word))).step) mmu
  -- SLLI (the source masks the shift amount with 0x0E)
  else if opcode = 0b0010011 ∧ funct3 = 0b001 then
    let d := variant.I.decode 32 instruction
    .done none ((c.set d.destination ((c.get d.source).shl
      (d.immediate.and (Reg.zero_extended_byte 32 0x0E)))).step) mmu
  -- SLLIW (guard: width is not 32 bits; reserved bit 5 of the shift traps)
  else if opcode = 0b0011011 ∧ funct3 = 0b001
      ∧ Register32.WIDTH ≠ RegisterWidth.Bits32 then
    let d := variant.I.decode 32 instruction
    if d.immediate.byte &&& 0x20 ≠ 0 then .done (some Trap.IllegalInstruction) c mmu
    else
      .done none ((c.set d.destination (Reg.sign_extended_wordValue 32
        (((Reg.from_unsigned 32 (c.get d.source).word).shl
          ((Reg.from_unsigned 32 d.immediate.word).and
            (Reg.zero_extended_byte 32 0x0E))).word))).step) mmu
  -- SRLI (guard: funct7 high bit clear; the source masks with 0x0E)
  else if opcode = 0b0010011 ∧ funct3 = 0b101 ∧ instruction.b3 &&& 0x40 = 0 then
    let d := variant.I.decode 32 instruction
    .done none ((c.set d.destination ((c.get d.source).shr
      (d.immediate.and (Reg.zero_extended_byte 32 0x0E)))).step) mmu
  -- SRLIW (guards as in the source)
  else if opcode = 0b0011011 ∧ funct3 = 0b101 ∧ instruction.b3 &&& 0x40 = 0
      ∧ Register32.WIDTH ≠ RegisterWidth.Bits32 then
    let d := variant.I.decode 32 instruction
    if d.immediate.byte &&& 0x20 ≠ 0 then .done (some Trap.IllegalInstruction) c mmu
    else
      .done none ((c.set d.destination (Reg.sign_extended_wordValue 32
        (((Reg.from_unsigned 32 (c.get d.source).word).shr
          ((Reg.from_unsigned 32 d.immediate.word).and
            (Reg.zero_extended_byte 32 0x0E))).word))).step) mmu
  -- SRAI (guard: funct7 high bit set; the source masks with 0x0E)
  else if opcode = 0b0010011 ∧ funct3 = 0b101 ∧ instruction.b3 &&& 0x40 ≠ 0 then
    let d := variant.I.decode 32 instruction
    .done none ((c.set d.destination ((c.get d.source).sha
      (d.immediate.and (Reg.zero_extended_byte 32 0x0E)))).step) mmu
  -- SRAIW (guards as in the source)
  else if opcode = 0b0011011 ∧ funct3 = 0b101 ∧ instruction.b3 &&& 0x40 ≠ 0
      ∧ Register32.WIDTH ≠ RegisterWidth.Bits32 then
    let d := variant.I.decode 32 instruction
    if d.immediate.byte &&& 0x20 ≠ 0 then .done (some Trap.IllegalInstruction) c mmu
    else
      .done none ((c.set d.destination (Reg.sign_extended_wordValue 32
        (((Reg.from_unsigned 32 (c.get d.source).word).sha
          ((Reg.from_unsigned 32 d.immediate.word).and
            (Reg.zero_extended_byte 32 0x0E))).word))).step) mmu
  -- LUI
  else if opcode = 0b0110111 then
    let d := variant.U.decode 32 instruction
    .done none ((c.set d.destination d.immediate).step) mmu
  -- AUIPC
  else if opcode = 0b0010111 then
    let d := variant.U.decode 32 instruction
    .done none ((c.set d.destination (c.pc.add_signed d.immediate)).step) mmu
  -- LB
  else if opcode = 0b0000011 ∧ funct3 = 0b000 then
    let d := variant.I.decode 32 instruction
    .done none ((c.set d.destination (Reg.sign_extended_byte 32
      (mmu.get ((c.get d.source).add_signed d.immediate).unsigned))).step) mmu
  -- LBU
  else if opcode = 0b0000011 ∧ funct3 = 0b100 then
    let d := variant.I.decode 32 instruction
    .done none ((c.set d.destination (Reg.zero_extended_byte 32
      (mmu.get ((c.get d.source).add_signed d.immediate).unsigned))).step) mmu
  -- LH
  else if opcode = 0b0000011 ∧ funct3 = 0b001 then
    let d := variant.I.decode 32 instruction
    let address := (c.get d.source).add_signed d.immediate
    .done none ((c.set d.destination (Reg.sign_extended_half 32
      (mmu.get address.unsigned) (mmu.get (address.append 1)))).step) mmu
  -- LHU
  else if opcode = 0b0000011 ∧ funct3 = 0b101 then
    let d := variant.I.decode 32 instruction
    let address := (c.get d.source).add_signed d.immediate
    .done none ((c.set d.destination (Reg.zero_extended_half 32
      (mmu.get address.unsigned) (mmu.get (address.append 1)))).step) mmu
  -- LW
  else if opcode = 0b0000011 ∧ funct3 = 0b010 then
    let d := variant.I.decode 32 instruction
    let address := (c.get d.source).add_signed d.immediate
    .done none ((c.set d.destination (Reg.sign_extended_word 32
      (mmu.get address.unsigned) (mmu.get (address.append 1))
      (mmu.get (address.append 2)) (mmu.get (address.append 3)))).step) mmu
  -- LWU (guard: width is not 32 bits)
  else if opcode = 0b0000011 ∧ funct3 = 0b110
      ∧ Register32.WIDTH ≠ RegisterWidth.Bits32 then
    let d := variant.I.decode 32 instruction
    let address := (c.get d.source).add_signed d.immediate
    .done none ((c.set d.destination (Reg.zero_extended_word 32
      (mmu.get address.unsigned) (mmu.get (address.append 1))
      (mmu.get (address.append 2)) (mmu.get (address.append 3)))).step) mmu
  -- LD (no width guard in the source; `sign_extended_double` on a 32-bit
  -- register is a Rust panic)
  else if opcode = 0b0000011 ∧ funct3 = 0b011 then
    .panicked
  -- SB
  else if opcode = 0b0100011 ∧ funct3 = 0b000 then
    let d := variant.S.decode 32 instruction
    let address := (c.get d.source1).add_signed d.immediate
    .done none c.step (mmu.set address.unsigned ((c.get d.source2).byte))
  -- SH
  else if opcode = 0b0100011 ∧ funct3 = 0b001 then
    let d := variant.S.decode 32 instruction
    let address := (c.get d.source1).add_signed d.immediate
    let half := (c.get d.source2).half
    .done none c.step ((mmu.set address.unsigned (half % 2 ^ 8)).set
      (address.append 1) (half / 2 ^ 8))
  -- SW
  else if opcode = 0b0100011 ∧ funct3 = 0b010 then
    let d := variant.S.decode 32 instruction
    let address := (c.get d.source1).add_signed d.immediate
    let word := (c.get d.source2).word
    .done none c.step ((((mmu.set address.unsigned (word % 2 ^ 8)).set
      (address.append 1) (word / 2 ^ 8 % 2 ^ 8)).set
      (address.append 2) (word / 2 ^ 16 % 2 ^ 8)).set
      (address.append 3) (word / 2 ^ 24 % 2 ^ 8))
  -- JAL
  else if opcode = 0b1101111 then
    let d := variant.J.decode 32 instruction
    let c1 := c.set d.destination (c.pc.add_unsigned (Reg.zero_extended_byte 32 4))
    .done none { c1 with pc := c1.pc.add_signed d.immediate } mmu
  -- JALR (the target is not masked in the source)
  else if opcode = 0b1100111 ∧ funct3 = 0b000 then
    let d := variant.I.decode 32 instruction
    let to_set := (c.get d.source).add_signed d.immediate
    let c1 := c.set d.destination (c.pc.add_unsigned (Reg.zero_extended_byte 32 4))
    .done none { c1 with pc := to_set } mmu
  -- BEQ
  else if opcode = 0b1100011 ∧ funct3 = 0b000 then
    let d := variant.B.decode 32 instruction
    if (c.get d.source1).eq (c.get d.source2)
    then .done none { c with pc := c.pc.add_signed d.immediate } mmu
    else .done none c.step mmu
  -- BNE
  else if opcode = 0b1100011 ∧ funct3 = 0b001 then
    let d := variant.B.decode 32 instruction
    if (c.get d.source1).neq (c.get d.source2)
    then .done none { c with pc := c.pc.add_signed d.immediate } mmu
    else .done none c.step mmu
  -- BLT
  else if opcode = 0b1100011 ∧ funct3 = 0b100 then
    let d := variant.B.decode 32 instruction
    if (c.get d.source1).lt_signed (c.get d.source2)
    then .done none { c with pc := c.pc.add_signed d.immediate } mmu
    else .done none c.step mmu
  -- BLTU
  else if opcode = 0b1100011 ∧ funct3 = 0b110 then
    let d := variant.B.decode 32 instruction
    if (c.get d.source1).lt_unsigned (c.get d.source2)
    then .done none { c with pc := c.pc.add_signed d.immediate } mmu
    else .done none c.step mmu
  -- BGE
  else if opcode = 0b1100011 ∧ funct3 = 0b101 then
    let d := variant.B.decode 32 instruction
    if (c.get d.source1).gte_signed (c.get d.source2)
    then .done none { c with pc := c.pc.add_signed d.immediate } mmu
    else .done none c.step mmu
  -- BGEU
  else if opcode = 0b1100011 ∧ funct3 = 0b111 then
    let d := variant.B.decode 32 instruction
    if (c.get d.source1).gte_unsigned (c.get d.source2)
    then .done none { c with pc := c.pc.add_signed d.immediate } mmu
    else .done none c.step mmu
  -- ECALL
  else if opcode = 0b1110011 ∧ funct3 = 0b000 ∧ instruction.b2 &&& 0x10 = 0 then
    .done (some Trap.SystemCall) c mmu
  -- EBREAK
  else if opcode = 0b1110011 ∧ funct3 = 0b000 ∧ instruction.b2 &&& 0x10 ≠ 0 then
    .done (some Trap.Breakpoint) c mmu
  -- MUL
  else if opcode = 0b0110011 ∧ funct3 = 0b000 ∧ funct7 = 0b0000001 then
    let d := variant.R.decode instruction
    .done none ((c.set d.destination ((c.get d.source1).mul (c.get d.source2))).step) mmu
  -- MULH
  else if opcode = 0b0110011 ∧ funct3 = 0b001 ∧ funct7 = 0b0000001 then
    let d := variant.R.decode instruction
    .done none ((c.set d.destination ((c.get d.source1).mulh (c.get d.source2))).step) mmu
  -- MULHSU
  else if opcode = 0b0110011 ∧ funct3 = 0b010 ∧ funct7 = 0b0000001 then
    let d := variant.R.decode instruction
    .done none ((c.set d.destination ((c.get d.source1).mulhsu (c.get d.source2))).step) mmu
  -- MULHU
  else if opcode = 0b0110011 ∧ funct3 = 0b011 ∧ funct7 = 0b0000001 then
    let d := variant.R.decode instruction
    .done none ((c.set d.destination ((c.get d.source1).mulhu (c.get d.source2))).step) mmu
  -- MULW (guard: width is 64 bits)
  else if opcode = 0b0111011 ∧ funct3 = 0b000 ∧ funct7 = 0b0000001
      ∧ Register32.WIDTH = RegisterWidth.Bits64 then
    let d := variant.R.decode instruction
    .done none ((c.set d.destination (Reg.sign_extended_wordValue 32
      (((Reg.from_unsigned 32 (c.get d.source1).word).mul
        (Reg.from_unsigned 32 (c.get d.source2).word)).word))).step) mmu
  -- DIV
  else if opcode = 0b0110011 ∧ funct3 = 0b100 ∧ funct7 = 0b0000001 then
    let d := variant.R.decode instruction
    .done none ((c.set d.destination ((c.get d.source1).div (c.get d.source2))).step) mmu
  -- DIVU
  else if opcode = 0b0110011 ∧ funct3 = 0b101 ∧ funct7 = 0b0000001 then
    let d := variant.R.decode instruction
    .done none ((c.set d.destination ((c.get d.source1).divu (c.get d.source2))).step) mmu
  -- DIVW (no width guard in the source)
  else if opcode = 0b0111011 ∧ funct3 = 0b100 ∧ funct7 = 0b0000001 then
    let d := variant.R.decode instruction
    .done none ((c.set d.destination (Reg.sign_extended_wordValue 32
      (((Reg.from_unsigned 32 (c.get d.source1).word).div
        (Reg.from_unsigned 32 (c.get d.source2).word)).word))).step) mmu
  -- DIVUW (no width guard in the source)
  else if opcode = 0b0111011 ∧ funct3 = 0b101 ∧ funct7 = 0b0000001 then
    let d := variant.R.decode instruction
    .done none ((c.set d.destination (Reg.sign_extended_wordValue 32
      (((Reg.from_unsigned 32 (c.get d.source1).word).divu
        (Reg.from_unsigned 32 (c.get d.source2).word)).word))).step) mmu
  -- REM
  else if opcode = 0b0110011 ∧ funct3 = 0b110 ∧ funct7 = 0b0000001 then
    let d := variant.R.decode instruction
    .done none ((c.set d.destination ((c.get d.source1).rem (c.get d.source2))).step) mmu
  -- REMU
  else if opcode = 0b0110011 ∧ funct3 = 0b111 ∧ funct7 = 0b0000001 then
    let d := variant.R.decode instruction
    .done none ((c.set d.destination ((c.get d.source1).remu (c.get d.source2))).step) mmu
  -- REMW (no width guard in the source)
  else if opcode = 0b0111011 ∧ funct3 = 0b110 ∧ funct7 = 0b0000001 then
    let d := variant.R.decode instruction
    .done none ((c.set d.destination (Reg.sign_extended_wordValue 32
      (((Reg.from_unsigned 32 (c.get d.source1).word).rem
        (Reg.from_unsigned 32 (c.get d.source2).word)).word))).step) mmu
  -- REMUW (no width guard in the source)
  else if opcode = 0b0111011 ∧ funct3 = 0b111 ∧ funct7 = 0b0000001 then
    let d := variant.R.decode instruction
    .done none ((c.set d.destination (Reg.sign_extended_wordValue 32
      (((Reg.from_unsigned 32 (c.get d.source1).word).remu
        (Reg.from_unsigned 32 (c.get d.source2).word)).word))).step) mmu
  -- fallthrough arm: illegal instruction
  else .done (some Trap.IllegalInstruction) c mmu

/-- Projections of a step outcome for stating concrete evaluations. -/
def StepResult.normal : StepResult → Bool
  | .done none _ _ => true
  | _ => false

/-- The returned trap of a step, `none` for a successful or aborted step. -/
def StepResult.trapOf : StepResult → Option Trap
  | .done t _ _ => t
  | .panicked => none

/-- The program counter of the hart a step returns (0 on abort). -/
def StepResult.pcOf : StepResult → Nat
  | .done _ c _ => c.pc.val
  | .panicked => 0

/-- The value of register `i` of the hart a step returns (0 on abort). -/
def StepResult.regOf : StepResult → Nat → Nat
  | .done _ c _, i => (c.get i).val
  | .panicked, _ => 0

/-- Mirrors `struct Csr<R>` of src/csr.rs at `R = Register32`. -/
structure Csr32 where
  mhartid : Reg 32
  mtvec : Reg 32
  medeleg : Reg 32
  mideleg : Reg 32
  mie : Reg 32
  mip : Reg 32
  mcycle : Reg 64
  mcounteren : Reg 32
  mscratch : Reg 32
  mepc : Reg 32
  mcause : Reg 32
  mtval : Reg 32

/-- Mirrors `Csr::new` of src/csr.rs. -/
def Csr32.new (hart : Nat) (trap_address : Nat) : Csr32 :=
  { mhartid := Reg.from_unsigned 32 hart
    mtvec := Reg.from_unsigned 32 trap_address
    medeleg := Reg.from_unsigned 32 0
    mideleg := Reg.from_unsigned 32 0
    mie := Reg.from_unsigned 32 0
    mip := Reg.from_unsigned 32 0
    mcycle := Reg.from_unsigned 64 0
    mcounteren := Reg.from_unsigned 32 0
    mscratch := Reg.from_unsigned 32 0
    mepc := Reg.from_unsigned 32 0
    mcause := Reg.from_unsigned 32 0
    mtval := Reg.from_unsigned 32 0 }

/-- Mirrors `struct Core<R>` at `R = Register32` with the `ext-csr`
feature: registers, program counter and the CSR file. -/
structure Core32C where
  registers : Nat → Reg 32
  pc : Reg 32
  csr : Csr32

namespace Core32C

/-- Mirrors `Core::new` (`ext-csr`). -/
def new (address : Nat) (hart : Nat) : Core32C :=
  { registers := fun _ => Reg.from_unsigned 32 0
    pc := Reg.from_unsigned 32 address
    csr := Csr32.new hart address }

/-- Mirrors `Core::step`. -/
def step (c : Core32C) : Core32C :=
  { c with pc := c.pc.add_unsigned (Reg.zero_extended_byte 32 4) }

/-- Mirrors `Core::get`. -/
def get (c : Core32C) (index : Nat) : Reg 32 := c.registers index

/-- Mirrors `Core::set`: writes to register 0 are discarded. -/
def set (c : Core32C) (index : Nat) (register : Reg 32) : Core32C :=
  if 0 < index then { c with registers := Function.update c.registers index register }
  else c

end Core32C

/-- Outcome of a CSR read: the `Result<R, Trap>` of `Core::get_csr`, with
`unimplemented!` (mstatus) as an explicit abort. -/
inductive CsrResult
  | ok (value : Reg 32)
  | trap (t : Trap)
  | aborted
deriving DecidableEq

/-- Mirrors `Core::get_csr` of src/system.rs at `R = Register32`, the
match arms in source order, width guards written with
`Register32.WIDTH`. -/
def Core32C.get_csr (c : Core32C) (index : Nat) : CsrResult :=
  -- mstatus
  if index = 0x300 then .aborted
  -- misa: bit 7 for the I extension, MXLEN in the top two bits
  else if index = 0x301 then
    match Register32.WIDTH with
    | RegisterWidth.Bits32 => .ok (Reg.zero_extended_word 32 0x80 0 0 (1 <<< 6))
    -- the 64-bit branch calls `zero_extended_double`, a panic on Register32
    | RegisterWidth.Bits64 => .aborted
  -- medeleg
  else if index = 0x302 then .ok c.csr.medeleg
  -- mideleg
  else if index = 0x303 then .ok c.csr.mideleg
  -- mie
  else if index = 0x304 then .ok c.csr.mie
  -- mtvec
  else if index = 0x305 then .ok c.csr.mtvec
  -- mcounteren
  else if index = 0x306 then .ok (Reg.from_unsigned 32 c.csr.mcounteren.word)
  -- mscratch
  else if index = 0x340 then .ok c.csr.mscratch
  -- mepc
  else if index = 0x341 then .ok c.csr.mepc
  -- mcause
  else if index = 0x342 then .ok c.csr.mcause
  -- mtval
  else if index = 0x343 then .ok c.csr.mtval
  -- mip
  else if index = 0x344 then .ok c.csr.mip
  -- mcycle and mcycleh
  else if index = 0xB00 ∧ Register32.WIDTH ≠ RegisterWidth.Bits32 then .aborted
  else if index = 0xB00 ∧ Register32.WIDTH = RegisterWidth.Bits32 then
    .ok (Reg.from_unsigned 32 ((Register64.split c.csr.mcycle).1).val)
  else if index = 0xB80 ∧ Register32.WIDTH = RegisterWidth.Bits32 then
    .ok (Reg.from_unsigned 32 ((Register64.split c.csr.mcycle).2).val)
  -- minstret, currently the same as mcycle
  else if index = 0xB02 ∧ Register32.WIDTH ≠ RegisterWidth.Bits32 then .aborted
  else if index = 0xB02 ∧ Register32.WIDTH = RegisterWidth.Bits32 then
    .ok (Reg.from_unsigned 32 ((Register64.split c.csr.mcycle).1).val)
  else if index = 0xB82 ∧ Register32.WIDTH = RegisterWidth.Bits32 then
    .ok (Reg.from_unsigned 32 ((Register64.split c.csr.mcycle).2).val)
  -- unused performance counters
  else if 0xB03 ≤ index ∧ index ≤ 0xB1F then .ok (Reg.from_unsigned 32 0)
  else if 0xB83 ≤ index ∧ index ≤ 0xB9F ∧ Register32.WIDTH = RegisterWidth.Bits32 then
    .ok (Reg.from_unsigned 32 0)
  -- unused performance event selectors
  else if 0xB23 ≤ index ∧ index ≤ 0xB3F then .ok (Reg.from_unsigned 32 0)
  -- mvendorid
  else if index = 0xF11 then .ok (Reg.from_unsigned 32 0)
  -- marchid
  else if index = 0xF12 then .ok (Reg.from_unsigned 32 0)
  -- mimpid: the version of rysk-core, `[PATCH, MINOR, MAJOR, 0]`
  else if index = 0xF13 then .ok (Reg.zero_extended_word 32 3 0 0 0)
  -- mhartid
  else if index = 0xF14 then .ok c.csr.mhartid
  else .trap Trap.IllegalInstruction

/-- Mirrors `Core::set_csr` of src/system.rs: only `mie` and `mip` are
written, each masked with `zero_extended_half([!0x44, !0xF4])`; every
other index is silently ignored. -/
def Core32C.set_csr (c : Core32C) (index : Nat) (value : Reg 32) : Core32C :=
  if index = 0x304 then
    { c with csr := { c.csr with mie := value.and (Reg.zero_extended_half 32 0xBB 0x0B) } }
  else if index = 0x344 then
    { c with csr := { c.csr with mip := value.and (Reg.zero_extended_half 32 0xBB 0x0B) } }
  else c

/-- Mirrors the CSRRW arm of `Core::execute` (opcode 0b1110011, funct3
0b001, `ext-csr`): read the old CSR (unless rd is x0), write the rs1
value through `set_csr`, write the old value to rd, advance the program
counter.  The `expect` on a failed CSR read is a Rust panic, modelled as
`none`. -/
def executeCSRRW (c : Core32C) (instruction : Bytes4) : Option Core32C :=
  let d := variant.C.decode instruction
  if d.destination ≠ 0 then
    match c.get_csr d.csr with
    | CsrResult.ok temporary =>
      some (((c.set_csr d.csr (c.get d.source)).set d.destination temporary).step)
    | _ => none
  else
    some ((c.set_csr d.csr (c.get d.source)).step)

/-- The CSR value read at `index` after one CSRRW step (abort if the
step itself aborted). -/
def csrReadAfterCSRRW (c : Core32C) (i : Bytes4) (index : Nat) : CsrResult :=
  match executeCSRRW c i with
  | some c' => c'.get_csr index
  | none => CsrResult.aborted

/-- The value of register `r` after one CSRRW step. -/
def regAfterCSRRW (c : Core32C) (i : Bytes4) (r : Nat) : Option Nat :=
  match executeCSRRW c i with
  | some c' => some (c'.get r).val
  | none => none

/-- The program counter after one CSRRW step. -/
def pcAfterCSRRW (c : Core32C) (i : Bytes4) : Option Nat :=
  match executeCSRRW c i with
  | some c' => some c'.pc.val
  | none => none

/-- The all-ones instruction word `[0xFF, 0xFF, 0xFF, 0xFF]`. -/
def allOnesWord : Bytes4 := ⟨0xFF, 0xFF, 0xFF, 0xFF⟩

/-- Hart for the SLLI probe: a 32-bit core at pc 0 with x1 = 1. -/
def slliCore : Core32 := (Core32.new 0).set 1 (Reg.from_unsigned 32 1)

/-- Memory holding `SLLI x1, x1, 1` (word 0x00109093) at address 0. -/
def slliMem : Mem := fun a =>
  if a = 0 then 0x93 else if a = 1 then 0x90 else if a = 2 then 0x10 else 0

/-- Hart for the JALR probe: a 32-bit core at pc 0 with x1 = 0x100. -/
def jalrCore : Core32 := (Core32.new 0).set 1 (Reg.from_unsigned 32 0x100)

/-- Memory holding `JALR x0, x1, 1` (word 0x00108067) at address 0. -/
def jalrMem : Mem := fun a =>
  if a = 0 then 0x67 else if a = 1 then 0x80 else if a = 2 then 0x10 else 0

/-- Hart for the ADDW probe: a 32-bit core at pc 0 with x2 = 5, x3 = 7. -/
def addwCore : Core32 :=
  ((Core32.new 0).set 2 (Reg.from_unsigned 32 5)).set 3 (Reg.from_unsigned 32 7)

/-- Memory holding `ADDW x1, x2, x3` (word 0x003100BB) at address 0. -/
def addwMem : Mem := fun a =>
  if a = 0 then 0xBB else if a = 1 then 0x00 else if a = 2 then 0x31 else 0

/-- Hart for the misaligned-fetch probe: a fresh 32-bit core whose
program counter is 2, which is not a multiple of 4. -/
def misalignedCore : Core32 := Core32.new 2

/-- Memory holding `ADDI x1, x0, 5` (word 0x00500093) at address 2. -/
def misalignedMem : Mem := fun a =>
  if a = 2 then 0x93 else if a = 3 then 0x00 else if a = 4 then 0x50 else 0

/-- Hart for the mscratch probe: a fresh CSR-enabled core (entry 0,
hart 0) with x2 = 0xDEADBEEF. -/
def mscratchCore : Core32C := (Core32C.new 0 0).set 2 (Reg.from_unsigned 32 0xDEADBEEF)

/-- Instruction word of `CSRRW x1, mscratch, x2` (0x340110F3). -/
def csrrwMscratchInstr : Bytes4 := ⟨0xF3, 0x10, 0x01, 0x34⟩

/-- Hart for the x0-destination CSRRW probe: a fresh CSR-enabled core
with x2 = 0xFFF. -/
def csrrwX0Core : Core32C := (Core32C.new 0 0).set 2 (Reg.from_unsigned 32 0xFFF)

/-- Instruction word of `CSRRW x0, mie, x2` (0x30411073). -/
def csrrwX0Instr : Bytes4 := ⟨0x73, 0x10, 0x41, 0x30⟩

/-- Hart and memory for the ADDI-to-x0 probe: `ADDI x0, x0, 5`
(word 0x00500013) at address 0 on a fresh 32-bit core. -/
def addiX0Core : Core32 := Core32.new 0

/-- Memory holding `ADDI x0, x0, 5` at address 0. -/
def addiX0Mem : Mem := fun a =>
  if a = 0 then 0x13 else if a = 1 then 0x00 else if a = 2 then 0x50 else 0

/-- C1: the 64-bit register type's width constant.  The source declares
`Register64::WIDTH = RegisterWidth::Bits32`, so it does not equal
`Bits64` and every guard of the form `R::WIDTH != RegisterWidth::Bits32`
is false when the core is instantiated with Register64: the claim
describes the intended value, the code has the opposite. -/
theorem c1_register64_width_is_bits32 :
    Register64.WIDTH = RegisterWidth.Bits32 ∧
    Register64.WIDTH ≠ RegisterWidth.Bits64 ∧
    ¬(Register64.WIDTH ≠ RegisterWidth.Bits32) := by
  decide

/-- C2: executing `SLLI x1, x1, 1` on a 32-bit core with x1 = 1 leaves
x1 = 1 and completes normally: the source masks the shift amount with
0x0E instead of 0x1F, so the decoded shift amount 1 becomes 0, refuting
the claim that SLLI by s shifts by exactly s bits for every s in
0..31. -/
theorem c2_slli_uses_0x0E_mask :
    (execute32 slliCore slliMem).regOf 1 = 1 ∧
    (execute32 slliCore slliMem).normal = true ∧
    (execute32 slliCore slliMem).pcOf = 4 := by
  decide

/-- C3: executing `JALR x0, x1, 1` with x1 = 0x100 sets the program
counter to 0x101, not 0x100: the source assigns `rs1 + sext(imm)` to the
program counter without masking the least-significant bit. -/
theorem c3_jalr_does_not_mask_lsb :
    (execute32 jalrCore jalrMem).pcOf = 0x101 ∧
    (execute32 jalrCore jalrMem).normal = true := by
  decide

/-- C4: executing `ADDW x1, x2, x3` on the 32-bit core with x2 = 5 and
x3 = 7 completes without a trap and writes 12 to x1: the ADDW arm (like
SUBW, ADDIW, LD and the DIVW/REMW family) has no width guard in the
source, refuting the claim that every W-suffixed instruction signals
IllegalInstruction on a 32-bit core and changes no register. -/
theorem c4_addw_executes_on_rv32 :
    (execute32 addwCore addwMem).normal = true ∧
    (execute32 addwCore addwMem).trapOf = none ∧
    (execute32 addwCore addwMem).regOf 1 = 12 := by
  decide

/-- C5: calling execute with the program counter at 2 (not a multiple of
4) fetches and executes the instruction found there: the `ADDI x1, x0,
5` stored at address 2 runs normally (x1 = 5, pc = 6) and no
InstructionMisaligned trap is signalled; the source contains no
alignment check at fetch time. -/
theorem c5_misaligned_pc_executes_normally :
    (execute32 misalignedCore misalignedMem).trapOf = none ∧
    (execute32 misalignedCore misalignedMem).normal = true ∧
    (execute32 misalignedCore misalignedMem).pcOf = 6 ∧
    (execute32 misalignedCore misalignedMem).regOf 1 = 5 := by
  decide

/-- C6 (counterexample): after `CSRRW x1, mscratch, x2` with
x2 = 0xDEADBEEF on a fresh core the value read back from mscratch is not
0xDEADBEEF (it is the initial 0, because `set_csr` ignores every index
other than mie and mip); and a write of 0x0001FFFF to mie does not read
back as 0x0001FFFF AND ~0x0000F444 = 0x00010BBB (bit 16 is cleared,
because the WPRI mask is zero-extended from a halfword). -/
theorem c6_csrrw_mscratch_counterexample :
    csrReadAfterCSRRW mscratchCore csrrwMscratchInstr 0x340 ≠
      CsrResult.ok (Reg.from_unsigned 32 0xDEADBEEF) ∧
    ((Core32C.new 0 0).set_csr 0x304 (Reg.from_unsigned 32 0x0001FFFF)).get_csr 0x304 ≠
      CsrResult.ok (Reg.from_unsigned 32 0x00010BBB) := by
  decide

/-- C6 (amended): the CSRRW write to mscratch is discarded — reading
mscratch after `CSRRW x1, mscratch, x2` on a fresh core returns the
initial value 0 — and a CSR write of any value v to mie reads back as
v AND 0x00000BBB: the WPRI mask `~0x0000F444` is zero-extended from the
low halfword, so bits 16 and above are cleared as well. -/
theorem c6_mscratch_discarded_mie_masked :
    csrReadAfterCSRRW mscratchCore csrrwMscratchInstr 0x340 =
      CsrResult.ok (Reg.from_unsigned 32 0) ∧
    ∀ (c : Core32C) (v : Reg 32),
      (c.set_csr 0x304 v).get_csr 0x304 =
        CsrResult.ok (Reg.from_unsigned 32 (v.val &&& 0x00000BBB)) := by
  constructor
  · decide
  · intro c v
    simp only [Core32C.set_csr, Core32C.get_csr]
    norm_num [Reg.and, Reg.zero_extended_half, Reg.unsigned, Reg.from_unsigned]

/-- C7 (counterexample): decoding `[0xFF, 0xFF, 0xFF, 0xFF]` with the B
variant does not give the all-ones immediate 0xFFFFFFFF — the decoded
branch offset always has its least-significant bit clear, so the value
is 0xFFFFFFFE. -/
theorem c7_b_immediate_not_all_ones :
    ¬((variant.B.decode 32 allOnesWord).immediate = Reg.from_unsigned 32 0xFFFFFFFF) := by
  decide

/-- C7 (amended): decoding `[0xFF, 0xFF, 0xFF, 0xFF]` yields
destination = source1 = source2 = 0x1F where the fields exist,
immediate 0xFFFFFFFF for the I and S variants, 0xFFFFFFFE for the B and
J variants (their least-significant bit is always zero), 0xFFFFF000 for
U, and csr = 0x0FFF for the C variant. -/
theorem c7_decode_all_ones_word :
    variant.R.decode allOnesWord = ⟨0x1F, 0x1F, 0x1F⟩ ∧
    variant.I.decode 32 allOnesWord = ⟨0x1F, 0x1F, Reg.from_unsigned 32 0xFFFFFFFF⟩ ∧
    variant.S.decode 32 allOnesWord = ⟨0x1F, 0x1F, Reg.from_unsigned 32 0xFFFFFFFF⟩ ∧
    variant.B.decode 32 allOnesWord = ⟨0x1F, 0x1F, Reg.from_unsigned 32 0xFFFFFFFE⟩ ∧
    variant.U.decode 32 allOnesWord = ⟨0x1F, Reg.from_unsigned 32 0xFFFFF000⟩ ∧
    variant.J.decode 32 allOnesWord = ⟨0x1F, Reg.from_unsigned 32 0xFFFFFFFE⟩ ∧
    variant.C.decode allOnesWord = ⟨0x1F, 0x1F, 0x0FFF⟩ := by
  decide

/-- Rebuilding a register from its unsigned value is the identity. -/
lemma Reg.from_unsigned_val {w : Nat} (x : Reg w) : Reg.from_unsigned w x.val = x :=
  Fin.ext (Nat.mod_eq_of_lt x.isLt)

/-- Rebuilding a register from its signed reading is the identity:
`from_signed` inverts `signed`. -/
lemma Reg.from_signed_signed {w : Nat} (x : Reg w) : Reg.from_signed w x.signed = x := by
  apply Fin.ext
  have h := x.isLt
  simp only [Reg.from_signed, Reg.from_unsigned, Reg.signed]
  split_ifs with hlt
  · rw [Int.emod_eq_of_lt (by positivity) (by exact_mod_cast h)]
    simp [Nat.mod_eq_of_lt h]
  · rw [Int.emod_sub_cancel, Int.emod_eq_of_lt (by positivity) (by exact_mod_cast h)]
    simp [Nat.mod_eq_of_lt h]

/-- C8: the M-extension division and remainder operations have the
ISA-defined fixed results at both register widths: dividing by zero
gives the all-ones pattern (signed view `-1`, unsigned view
`2 ^ XLEN - 1`), the remainder of division by zero is the dividend, and
the signed-overflow case `MIN / -1` saturates to `MIN` with remainder
zero; every case is a total function application. -/
theorem c8_m_division_fixed_results :
    (∀ x : Reg 32,
      x.div (Reg.from_unsigned 32 0) = Reg.from_signed 32 (-1) ∧
      (x.div (Reg.from_unsigned 32 0)).val = 2 ^ 32 - 1 ∧
      x.divu (Reg.from_unsigned 32 0) = Reg.from_unsigned 32 (2 ^ 32 - 1) ∧
      x.rem (Reg.from_unsigned 32 0) = x ∧
      x.remu (Reg.from_unsigned 32 0) = x ∧
      (Reg.from_signed 32 (-(2 ^ 31))).div (Reg.from_signed 32 (-1)) =
        Reg.from_signed 32 (-(2 ^ 31)) ∧
      (Reg.from_signed 32 (-(2 ^ 31))).rem (Reg.from_signed 32 (-1)) =
        Reg.from_unsigned 32 0) ∧
    (∀ y : Reg 64,
      y.div (Reg.from_unsigned 64 0) = Reg.from_signed 64 (-1) ∧
      (y.div (Reg.from_unsigned 64 0)).val = 2 ^ 64 - 1 ∧
      y.divu (Reg.from_unsigned 64 0) = Reg.from_unsigned 64 (2 ^ 64 - 1) ∧
      y.rem (Reg.from_unsigned 64 0) = y ∧
      y.remu (Reg.from_unsigned 64 0) = y ∧
      (Reg.from_signed 64 (-(2 ^ 63))).div (Reg.from_signed 64 (-1)) =
        Reg.from_signed 64 (-(2 ^ 63)) ∧
      (Reg.from_signed 64 (-(2 ^ 63))).rem (Reg.from_signed 64 (-1)) =
        Reg.from_unsigned 64 0) := by
  constructor
  · intro x
    have hz : Reg.signed (Reg.from_unsigned 32 0) = 0 := by
      norm_num [Reg.signed, Reg.from_unsigned]
    have huz : Reg.unsigned (Reg.from_unsigned 32 0) = 0 := by
      norm_num [Reg.unsigned, Reg.from_unsigned]
    have h1 : x.div (Reg.from_unsigned 32 0) = Reg.from_signed 32 (-1) := by
      simp [Reg.div, hz, SignedInt.div]
    refine ⟨h1, ?_, ?_, ?_, ?_, by decide, by decide⟩
    · rw [h1]; decide
    · simp [Reg.divu, huz, UnsignedInt.div]
    · simp only [Reg.rem, hz, SignedInt.rem, if_pos rfl]
      exact Reg.from_signed_signed x
    · simp only [Reg.remu, huz, UnsignedInt.rem, if_pos rfl]
      exact Reg.from_unsigned_val x
  · intro y
    have hz : Reg.signed (Reg.from_unsigned 64 0) = 0 := by
      norm_num [Reg.signed, Reg.from_unsigned]
    have huz : Reg.unsigned (Reg.from_unsigned 64 0) = 0 := by
      norm_num [Reg.unsigned, Reg.from_unsigned]
    have h1 : y.div (Reg.from_unsigned 64 0) = Reg.from_signed 64 (-1) := by
      simp [Reg.div, hz, SignedInt.div]
    refine ⟨h1, ?_, ?_, ?_, ?_, by decide, by decide⟩
    · rw [h1]; decide
    · simp [Reg.divu, huz, UnsignedInt.div]
    · simp only [Reg.rem, hz, SignedInt.rem, if_pos rfl]
      exact Reg.from_signed_signed y
    · simp only [Reg.remu, huz, UnsignedInt.rem, if_pos rfl]
      exact Reg.from_unsigned_val y

/-- A step outcome preserves register 0 relative to the starting hart
(vacuously for an aborted step, which returns no hart). -/
def preservesX0 (r : StepResult) (c : Core32) : Prop :=
  match r with
  | .done _ c' _ => c'.get 0 = c.get 0
  | .panicked => True

/-- Register writes through `Core::set` never change register 0. -/
lemma Core32.set_registers_zero (c : Core32) (i : Nat) (v : Reg 32) :
    (c.set i v).registers 0 = c.registers 0 := by
  unfold Core32.set
  split_ifs with h
  · exact Function.update_noteq (by omega) _ _
  · rfl

/-- Preservation of register 0 distributes over a dispatch branch. -/
lemma preservesX0_ite {p : Prop} [Decidable p] {a b : StepResult} {c : Core32}
    (ha : preservesX0 a c) (hb : preservesX0 b c) :
    preservesX0 (if p then a else b) c := by
  split
  · exact ha
  · exact hb

/-- A step outcome in which a returned trap implies the hart and the
memory are exactly the starting ones. -/
def trapLeavesState (r : StepResult) (c : Core32) (m : Mem) : Prop :=
  match r with
  | .done (some _) c' m' => c' = c ∧ m' = m
  | _ => True

/-- Unchanged-state-on-trap distributes over a dispatch branch. -/
lemma trapLeavesState_ite {p : Prop} [Decidable p] {a b : StepResult}
    {c : Core32} {m : Mem} (ha : trapLeavesState a c m)
    (hb : trapLeavesState b c m) :
    trapLeavesState (if p then a else b) c m := by
  split
  · exact ha
  · exact hb

set_option maxHeartbeats 1000000 in
/-- C9: register x0 is hardwired to zero — `set 0 v` is the identity on
the hart (so any sequence of such writes leaves `get 0` at the zero
register it holds on a fresh core), one execute step never changes
register 0, and an instruction naming x0 as destination still performs
its other effects: `ADDI x0, x0, 5` advances the program counter to 4
with register 0 still zero, and `CSRRW x0, mie, x2` still writes the CSR
while register 0 stays zero and the program counter advances. -/
theorem c9_register_zero_immutable :
    (∀ (c : Core32) (v : Reg 32), c.set 0 v = c) ∧
    (∀ address : Nat, (Core32.new address).get 0 = Reg.from_unsigned 32 0) ∧
    (∀ (c : Core32) (m : Mem), preservesX0 (execute32 c m) c) ∧
    (execute32 addiX0Core addiX0Mem).normal = true ∧
    (execute32 addiX0Core addiX0Mem).pcOf = 4 ∧
    (execute32 addiX0Core addiX0Mem).regOf 0 = 0 ∧
    csrReadAfterCSRRW csrrwX0Core csrrwX0Instr 0x304 =
      CsrResult.ok (Reg.from_unsigned 32 0xBBB) ∧
    regAfterCSRRW csrrwX0Core csrrwX0Instr 0 = some 0 ∧
    pcAfterCSRRW csrrwX0Core csrrwX0Instr = some 4 := by
  refine ⟨?_, ?_, ?_, by decide, by decide, by decide, by decide, by decide, by decide⟩
  · intro c v
    simp [Core32.set]
  · intro address
    rfl
  · intro c m
    unfold execute32
    dsimp only
    repeat' apply preservesX0_ite
    all_goals
      simp [preservesX0, Core32.get, Core32.step, Core32.set_registers_zero]

set_option maxHeartbeats 1000000 in
/-- C10: without the `ext-csr` feature, every trap `execute` returns is
reported with the hart and the memory exactly as they were before the
call: all trap-returning paths run before any register, program-counter
or memory mutation. -/
theorem c10_trap_returns_leave_state :
    ∀ (c : Core32) (m : Mem), trapLeavesState (execute32 c m) c m := by
  intro c m
  unfold execute32
  dsimp only
  repeat' apply trapLeavesState_ite
  all_goals simp [trapLeavesState]
